import Mathlib

/-!
Verification development for the retrieval evaluation framework
(src/src/evaluation.py).  The Python module computes standard IR metrics
(Precision@K, Recall@K, reciprocal rank, hit rate) for a RAG system.

Shallow embedding notes:
* Python floats are modelled as rationals; all metric arithmetic in the
  source is exact on small integer ratios, so the rational semantics is
  the intended real-number semantics of the code.
* The external retriever (self.retriever.retrieve) is modelled as a pure
  oracle returning the ordered document list together with the measured
  latency in milliseconds; wall-clock time is external nondeterminism.
* Python ValueError raised by run_evaluation and export_results is the
  ConfigurationError kind of the specification; json file handling is
  modelled at the level of JSON values (the byte serialization is the
  standard library and out of scope).
* Mutable method state (self) is passed explicitly; a method that does
  not assign to self returns the state it was given.
-/

/-- One retrieved document; only the source_file metadata entry is ever
read by the evaluator (doc.metadata.get with default Unknown). -/
structure RetrievedDoc where
  source_file : Option String
deriving DecidableEq, Repr

/-- A registered test case: the dict built by add_test_case. -/
structure TestCase where
  query : String
  expected_sources : List String
  course_id : Option String
deriving DecidableEq, Repr

/-- The EvalResult dataclass. -/
structure EvalResult where
  query : String
  expected_sources : List String
  retrieved_sources : List String
  precision_at_k : ℚ
  recall_at_k : ℚ
  reciprocal_rank : ℚ
  hit : Bool
  latency_ms : ℚ
deriving DecidableEq, Repr

/-- The EvalSummary dataclass. -/
structure EvalSummary where
  num_queries : Nat
  precision_at_k : ℚ
  recall_at_k : ℚ
  mrr : ℚ
  hit_rate : ℚ
  avg_latency_ms : ℚ
  p95_latency_ms : ℚ
  timestamp : String
deriving DecidableEq, Repr

/-- Error kinds of the framework: ValueError raised on invalid state is
the ConfigurationError of the spec; malformed test-case input is the
ParseError of the spec. -/
inductive EvalError where
  | configurationError (msg : String)
  | parseError (msg : String)
deriving DecidableEq, Repr

/-- The dictionary written by export_results. -/
structure ExportData where
  timestamp : String
  k : Nat
  num_queries : Nat
  results : List EvalResult
deriving DecidableEq, Repr

/-- The mutable state of a RetrievalEvaluator: retriever, default k,
test_cases and results, as set up by the constructor. -/
structure EvaluatorState where
  retriever : String → Option String → Nat → List RetrievedDoc × ℚ
  k : Nat
  test_cases : List TestCase
  results : List EvalResult

/-- doc.metadata.get of source_file with default Unknown. -/
def extract_source (d : RetrievedDoc) : String :=
  d.source_file.getD "Unknown"

/-- The method _calculate_precision_at_k: 0 when k is 0, otherwise the
cardinality of the set intersection of the top-k retrieved sources with
the relevant sources, divided by k. -/
def calculate_precision_at_k (retrieved relevant : List String) (k : Nat) : ℚ :=
  if k = 0 then 0
  else (((retrieved.take k).toFinset ∩ relevant.toFinset).card : ℚ) / (k : ℚ)

/-- The method _calculate_recall_at_k: 0 when relevant is empty,
otherwise the same intersection cardinality divided by the length of
the relevant list. -/
def calculate_recall_at_k (retrieved relevant : List String) (k : Nat) : ℚ :=
  if relevant.length = 0 then 0
  else (((retrieved.take k).toFinset ∩ relevant.toFinset).card : ℚ) / (relevant.length : ℚ)

/-- The enumerate loop of _calculate_reciprocal_rank, carrying the
1-based counter i. -/
def rr_aux (relevant : List String) : List String → Nat → ℚ
  | [], _ => 0
  | d :: rest, i => if d ∈ relevant then 1 / (i : ℚ) else rr_aux relevant rest (i + 1)

/-- The method _calculate_reciprocal_rank: 1 over the 1-based rank of
the first retrieved source that is relevant, scanning the full list. -/
def calculate_reciprocal_rank (retrieved relevant : List String) : ℚ :=
  rr_aux relevant retrieved 1

/-- The hit test inlined in evaluate_single: any source of the top-k
slice that is in expected_sources. -/
def hit_at_k (retrieved relevant : List String) (k : Nat) : Bool :=
  (retrieved.take k).any fun s => decide (s ∈ relevant)

/-- The Python idiom k = k or self.k used by evaluate_single and
run_evaluation: None and 0 are both falsy, so both select self.k. -/
def effective_k (st : EvaluatorState) (kOpt : Option Nat) : Nat :=
  match kOpt with
  | none => st.k
  | some k => if k = 0 then st.k else k

/-- The method evaluate_single.  The retriever oracle provides the
document list and the measured latency.  The method reads self.k and
self.retriever and assigns nothing, so the state comes back unchanged. -/
def evaluate_single (st : EvaluatorState) (query : String)
    (expected_sources : List String) (course_id : Option String)
    (kOpt : Option Nat) : EvalResult × EvaluatorState :=
  let k := effective_k st kOpt
  let call := st.retriever query course_id k
  let retrieved_sources := call.1.map extract_source
  ({ query := query
     expected_sources := expected_sources
     retrieved_sources := retrieved_sources
     precision_at_k := calculate_precision_at_k retrieved_sources expected_sources k
     recall_at_k := calculate_recall_at_k retrieved_sources expected_sources k
     reciprocal_rank := calculate_reciprocal_rank retrieved_sources expected_sources
     hit := hit_at_k retrieved_sources expected_sources k
     latency_ms := call.2 }, st)

/-- The per-case loop body of run_evaluation: every test case evaluated
in registration order with the shared effective k. -/
def run_results (st : EvaluatorState) (kOpt : Option Nat) : List EvalResult :=
  st.test_cases.map fun c =>
    (evaluate_single st c.query c.expected_sources c.course_id
      (some (effective_k st kOpt))).1

/-- The method run_evaluation: guard on an empty test-case collection,
evaluate every case, store the results, and build the aggregate summary.
now stands for the external datetime.now value. -/
def run_evaluation (now : String) (st : EvaluatorState) (kOpt : Option Nat) :
    Except EvalError (EvalSummary × EvaluatorState) :=
  if st.test_cases = [] then
    .error (.configurationError
      "No test cases added. Use add_test_case or load_test_cases first.")
  else
    let results := run_results st kOpt
    let latencies := results.map fun r => r.latency_ms
    let n := results.length
    .ok ({ num_queries := n
           precision_at_k := (results.map fun r => r.precision_at_k).sum / (n : ℚ)
           recall_at_k := (results.map fun r => r.recall_at_k).sum / (n : ℚ)
           mrr := (results.map fun r => r.reciprocal_rank).sum / (n : ℚ)
           hit_rate := (results.map fun r => if r.hit then (1 : ℚ) else 0).sum / (n : ℚ)
           avg_latency_ms := latencies.sum / (n : ℚ)
           p95_latency_ms :=
             if 1 < n then
               (List.insertionSort (· ≤ ·) latencies).getD (95 * n / 100) 0
             else latencies.headI
           timestamp := now },
         { st with results := results })

/-- The method export_results: guard on an empty result set, then emit
the export dictionary (timestamp, the constructor default self.k, the
result count and the full results). -/
def export_results (now : String) (st : EvaluatorState) :
    Except EvalError ExportData :=
  if st.results = [] then
    .error (.configurationError "No results to export. Run evaluation first.")
  else
    .ok { timestamp := now
          k := st.k
          num_queries := st.results.length
          results := st.results }

/-- The method add_test_case: appends the case dict to self.test_cases. -/
def add_test_case (st : EvaluatorState) (query : String)
    (expected_sources : List String) (course_id : Option String) :
    EvaluatorState :=
  { st with test_cases := st.test_cases ++ [⟨query, expected_sources, course_id⟩] }

/-- JSON values, as far as the test-case file format uses them. -/
inductive Json where
  | null
  | str (s : String)
  | arr (xs : List Json)
  | obj (fields : List (String × Json))

/-- Dictionary lookup: first field with the given key, if any. -/
def lookup_field (fields : List (String × Json)) (key : String) : Option Json :=
  match fields with
  | [] => none
  | (k, v) :: rest => if k = key then some v else lookup_field rest key

/-- json.dump of one test-case dict, keys in the insertion order of
add_test_case; a None course_id becomes JSON null. -/
def encode_case (c : TestCase) : Json :=
  .obj [("query", .str c.query),
        ("expected_sources", .arr (c.expected_sources.map .str)),
        ("course_id", match c.course_id with
                      | none => .null
                      | some s => .str s)]

/-- Decoding of the expected_sources array: every element a string. -/
def decode_sources : List Json → Except EvalError (List String)
  | [] => .ok []
  | .str s :: rest => (decode_sources rest).map fun l => s :: l
  | _ :: _ => .error (.parseError "expected_sources entries must be strings")

/-- Decoding of one record: the dict lookups done by load_test_cases.
A missing query or expected_sources key (Python KeyError) is the
ParseError of the spec; course_id uses dict.get, so a missing key or a
null is None. -/
def decode_case : Json → Except EvalError TestCase
  | .obj fields =>
    match lookup_field fields "query" with
    | some (.str q) =>
      match lookup_field fields "expected_sources" with
      | some (.arr js) =>
        match decode_sources js with
        | .ok srcs =>
          match lookup_field fields "course_id" with
          | some (.str c) => .ok ⟨q, srcs, some c⟩
          | some .null => .ok ⟨q, srcs, none⟩
          | none => .ok ⟨q, srcs, none⟩
          | some _ => .error (.parseError "course_id must be a string or null")
        | .error e => .error e
      | _ => .error (.parseError "missing or malformed expected_sources")
    | _ => .error (.parseError "missing or malformed query")
  | _ => .error (.parseError "each test case must be an object")

/-- Decoding of the whole record list. -/
def decode_cases : List Json → Except EvalError (List TestCase)
  | [] => .ok []
  | j :: rest =>
    match decode_case j with
    | .ok c => (decode_cases rest).map fun l => c :: l
    | .error e => .error e

/-- The for loop of load_test_cases: add_test_case on every record, in
file order. -/
def load_loop (st : EvaluatorState) : List TestCase → EvaluatorState
  | [] => st
  | c :: rest => load_loop (add_test_case st c.query c.expected_sources c.course_id) rest

/-- The method load_test_cases, at the level of the parsed JSON value:
the file must hold an array of records; each record is registered via
add_test_case and the record count is returned. -/
def load_test_cases (st : EvaluatorState) (j : Json) :
    Except EvalError (Nat × EvaluatorState) :=
  match j with
  | .arr cases =>
    match decode_cases cases with
    | .ok tcs => .ok (cases.length, load_loop st tcs)
    | .error e => .error e
  | _ => .error (.parseError "test case file must hold an array")

/-- The method save_test_cases, at the level of the produced JSON
value: json.dump of self.test_cases. -/
def save_test_cases (st : EvaluatorState) : Json :=
  .arr (st.test_cases.map encode_case)

/-- Gives a document with absent source metadata an explicit source s;
documents that already carry metadata are untouched.  Used to express
that missing-metadata documents count as irrelevant. -/
def fill_source (s : String) (d : RetrievedDoc) : RetrievedDoc :=
  match d.source_file with
  | none => ⟨some s⟩
  | some t => ⟨some t⟩

/-- The evaluator whose retriever behaves like the given one except
that every document with absent source metadata reports s instead. -/
def fill_missing_sources (s : String) (st : EvaluatorState) : EvaluatorState :=
  { st with retriever := fun q cid k =>
      ((st.retriever q cid k).1.map (fill_source s), (st.retriever q cid k).2) }

/-- Two source entries are interchangeable for relevance against E when
they agree on membership in E and coincide whenever relevant. -/
def IrrelSub (E : List String) (a b : String) : Prop :=
  (a ∈ E ↔ b ∈ E) ∧ (a ∈ E → a = b)

/-! Concrete evaluator states used to instantiate the claim theorems. -/

/-- Scenario A retriever: three documents, the expected one first. -/
def retrC1 : String → Option String → Nat → List RetrievedDoc × ℚ :=
  fun _ _ _ => ([⟨some "syllabus.pdf"⟩, ⟨some "notes.pdf"⟩, ⟨some "schedule.pdf"⟩], 12)

def stC1 : EvaluatorState := ⟨retrC1, 5, [], []⟩

/-- Five test cases whose retrieval latencies are 10, 20, 30, 40, 50 ms. -/
def stC3 : EvaluatorState :=
  ⟨fun q _ _ => ([], if q = "q1" then 10 else if q = "q2" then 20 else if q = "q3" then 30
     else if q = "q4" then 40 else 50), 5,
   [⟨"q1", [], none⟩, ⟨"q2", [], none⟩, ⟨"q3", [], none⟩,
    ⟨"q4", [], none⟩, ⟨"q5", [], none⟩], []⟩

/-- Two test cases: the first is a hit with precision 1, the second a
miss with precision 0, under k equal 1. -/
def stC8 : EvaluatorState :=
  ⟨fun _ _ _ => ([⟨some "a"⟩], 7), 1,
   [⟨"q1", ["a"], none⟩, ⟨"q2", ["b"], none⟩], []⟩

/-- An evaluator with no test cases registered and no run stored. -/
def stC6 : EvaluatorState := ⟨fun _ _ _ => ([], 0), 5, [], []⟩

/-- An evaluator holding two test cases, one with a scope filter. -/
def stC7 : EvaluatorState :=
  ⟨fun _ _ _ => ([], 0), 5,
   [⟨"What is the grading policy?", ["syllabus.pdf"], none⟩,
    ⟨"When is the midterm?", ["syllabus.pdf", "schedule.pdf"], some "CS101"⟩], []⟩

/-- A fresh evaluator with no test cases. -/
def stC7fresh : EvaluatorState := ⟨fun _ _ _ => ([], 0), 5, [], []⟩

/-- Default k 5, and the retriever always returns the expected file. -/
def stC4 : EvaluatorState :=
  ⟨fun _ _ _ => ([⟨some "syllabus.pdf"⟩], 3), 5, [], []⟩

/-- Default k 0, same retriever. -/
def stC4zero : EvaluatorState :=
  ⟨fun _ _ _ => ([⟨some "syllabus.pdf"⟩], 3), 0, [], []⟩

/-- A retriever returning one document with no source metadata. -/
def stC5 : EvaluatorState := ⟨fun _ _ _ => ([⟨none⟩], 2), 1, [], []⟩

/-- A retriever returning one missing-metadata document and one real
document, under default k 2. -/
def stC5mix : EvaluatorState := ⟨fun _ _ _ => ([⟨none⟩, ⟨some "a"⟩], 2), 2, [], []⟩

/-- One test case and default k 5. -/
def stC10 : EvaluatorState :=
  ⟨fun _ _ _ => ([], 4), 5, [⟨"q", ["a"], none⟩], []⟩

/-! Helper lemmas about the metric computations. -/

theorem inter_card_le_k (l r : List String) (k : Nat) :
    ((l.take k).toFinset ∩ r.toFinset).card ≤ k :=
  le_trans (Finset.card_le_card Finset.inter_subset_left)
    (le_trans (List.toFinset_card_le _) (by simp [List.length_take]))

theorem inter_card_le_relevant (l r : List String) (k : Nat) :
    ((l.take k).toFinset ∩ r.toFinset).card ≤ r.length :=
  le_trans (Finset.card_le_card Finset.inter_subset_right) (List.toFinset_card_le r)

theorem calculate_precision_at_k_nonneg (l r : List String) (k : Nat) :
    0 ≤ calculate_precision_at_k l r k := by
  unfold calculate_precision_at_k
  split
  · exact le_refl 0
  · positivity

theorem calculate_precision_at_k_le_one (l r : List String) (k : Nat) :
    calculate_precision_at_k l r k ≤ 1 := by
  unfold calculate_precision_at_k
  split
  · exact zero_le_one
  · rename_i hk
    rw [div_le_one (by exact_mod_cast Nat.pos_of_ne_zero hk)]
    exact_mod_cast inter_card_le_k l r k

theorem calculate_recall_at_k_nonneg (l r : List String) (k : Nat) :
    0 ≤ calculate_recall_at_k l r k := by
  unfold calculate_recall_at_k
  split
  · exact le_refl 0
  · positivity

theorem calculate_recall_at_k_le_one (l r : List String) (k : Nat) :
    calculate_recall_at_k l r k ≤ 1 := by
  unfold calculate_recall_at_k
  split
  · exact zero_le_one
  · rename_i hr
    rw [div_le_one (by exact_mod_cast Nat.pos_of_ne_zero hr)]
    exact_mod_cast inter_card_le_relevant l r k

theorem rr_aux_eq_zero (rel : List String) :
    ∀ (l : List String) (c : Nat), (∀ x ∈ l, x ∉ rel) → rr_aux rel l c = 0 := by
  intro l
  induction l with
  | nil => intro c _; rfl
  | cons d rest ih =>
    intro c hall
    rw [rr_aux, if_neg (hall d (by simp))]
    exact ih (c + 1) fun x hx => hall x (by simp [hx])

theorem rr_aux_pos (rel : List String) :
    ∀ (l : List String) (c : Nat), 1 ≤ c → (∃ x ∈ l, x ∈ rel) →
      0 < rr_aux rel l c := by
  intro l
  induction l with
  | nil => intro c _ hex; obtain ⟨x, hx, _⟩ := hex; cases hx
  | cons d rest ih =>
    intro c hc hex
    rw [rr_aux]
    by_cases hd : d ∈ rel
    · rw [if_pos hd]
      have : (0 : ℚ) < (c : ℚ) := by exact_mod_cast hc
      positivity
    · rw [if_neg hd]
      obtain ⟨x, hx, hxr⟩ := hex
      rcases List.mem_cons.mp hx with h | h
      · exact absurd (h ▸ hxr) hd
      · exact ih (c + 1) (by omega) ⟨x, h, hxr⟩

theorem rr_aux_first (rel : List String) :
    ∀ (l : List String) (c i : Nat) (h : i < l.length),
      l.get ⟨i, h⟩ ∈ rel →
      (∀ (j : Nat) (hj : j < l.length), j < i → l.get ⟨j, hj⟩ ∉ rel) →
      rr_aux rel l c = 1 / ((c + i : Nat) : ℚ) := by
  intro l
  induction l with
  | nil => intro c i h; cases h
  | cons d rest ih =>
    intro c i h hmem hfirst
    match i with
    | 0 =>
      have hd : d ∈ rel := hmem
      rw [rr_aux, if_pos hd]
      norm_num
    | Nat.succ j =>
      have hd : d ∉ rel := hfirst 0 (by simp) (Nat.succ_pos j)
      rw [rr_aux, if_neg hd]
      have hrec := ih (c + 1) j (Nat.lt_of_succ_lt_succ h) hmem
        (fun m hm hmj => hfirst (m + 1) (Nat.succ_lt_succ hm) (Nat.succ_lt_succ hmj))
      rw [hrec]
      congr 1
      push_cast
      ring

theorem hit_at_k_iff (retrieved rel : List String) (k : Nat) :
    hit_at_k retrieved rel k = true ↔ ∃ x ∈ retrieved.take k, x ∈ rel := by
  simp [hit_at_k, List.any_eq_true]

theorem forall₂_irrelsub_take (E : List String) :
    ∀ (l l2 : List String), List.Forall₂ (IrrelSub E) l l2 →
      ∀ k, List.Forall₂ (IrrelSub E) (l.take k) (l2.take k) := by
  intro l l2 hf
  induction hf with
  | nil => intro k; simp [List.Forall₂.nil]
  | cons hab _ ih =>
    intro k
    match k with
    | 0 => simp [List.Forall₂.nil]
    | Nat.succ m => exact List.Forall₂.cons hab (ih m)

theorem inter_irrelsub_congr (E : List String) :
    ∀ (l l2 : List String), List.Forall₂ (IrrelSub E) l l2 →
      l.toFinset ∩ E.toFinset = l2.toFinset ∩ E.toFinset := by
  intro l l2 hf
  induction hf with
  | nil => rfl
  | @cons a b l l2 hab _ ih =>
    by_cases ha : a ∈ E
    · have hb : b ∈ E := hab.1.mp ha
      have hba : a = b := hab.2 ha
      subst hba
      rw [List.toFinset_cons, List.toFinset_cons,
        Finset.insert_inter_of_mem (List.mem_toFinset.mpr ha),
        Finset.insert_inter_of_mem (List.mem_toFinset.mpr ha), ih]
    · have hb : b ∉ E := fun hbE => ha (hab.1.mpr hbE)
      rw [List.toFinset_cons, List.toFinset_cons,
        Finset.insert_inter_of_not_mem (fun hm => ha (List.mem_toFinset.mp hm)),
        Finset.insert_inter_of_not_mem (fun hm => hb (List.mem_toFinset.mp hm)), ih]

theorem precision_irrelsub_congr (E : List String) (l l2 : List String) (k : Nat)
    (hf : List.Forall₂ (IrrelSub E) l l2) :
    calculate_precision_at_k l E k = calculate_precision_at_k l2 E k := by
  unfold calculate_precision_at_k
  rw [inter_irrelsub_congr E _ _ (forall₂_irrelsub_take E l l2 hf k)]

theorem recall_irrelsub_congr (E : List String) (l l2 : List String) (k : Nat)
    (hf : List.Forall₂ (IrrelSub E) l l2) :
    calculate_recall_at_k l E k = calculate_recall_at_k l2 E k := by
  unfold calculate_recall_at_k
  rw [inter_irrelsub_congr E _ _ (forall₂_irrelsub_take E l l2 hf k)]

theorem rr_irrelsub_congr (E : List String) :
    ∀ (l l2 : List String), List.Forall₂ (IrrelSub E) l l2 →
      ∀ c, rr_aux E l c = rr_aux E l2 c := by
  intro l l2 hf
  induction hf with
  | nil => intro c; rfl
  | @cons a b l l2 hab _ ih =>
    intro c
    by_cases ha : a ∈ E
    · have hb : b ∈ E := hab.1.mp ha
      have hba : a = b := hab.2 ha
      rw [rr_aux, rr_aux, if_pos ha, if_pos hb]
    · have hb : b ∉ E := fun hbE => ha (hab.1.mpr hbE)
      rw [rr_aux, rr_aux, if_neg ha, if_neg hb]
      exact ih (c + 1)

theorem any_irrelsub_congr (E : List String) :
    ∀ (t1 t2 : List String), List.Forall₂ (IrrelSub E) t1 t2 →
      (t1.any fun s => decide (s ∈ E)) = (t2.any fun s => decide (s ∈ E)) := by
  intro t1 t2 hf
  induction hf with
  | nil => rfl
  | @cons a b l3 l4 hab _ ih =>
    simp only [List.any_cons, ih]
    congr 1
    exact decide_eq_decide.mpr hab.1

theorem hit_irrelsub_congr (E : List String) (l l2 : List String) (k : Nat)
    (hf : List.Forall₂ (IrrelSub E) l l2) :
    hit_at_k l E k = hit_at_k l2 E k :=
  any_irrelsub_congr E _ _ (forall₂_irrelsub_take E l l2 hf k)

theorem fill_source_forall₂ (E : List String) (s : String)
    (hU : ("Unknown" : String) ∉ E) (hs : s ∉ E) :
    ∀ docs : List RetrievedDoc,
      List.Forall₂ (IrrelSub E) (docs.map extract_source)
        ((docs.map (fill_source s)).map extract_source) := by
  intro docs
  induction docs with
  | nil => simp [List.Forall₂.nil]
  | cons d rest ih =>
    refine List.Forall₂.cons ?_ ih
    match d with
    | ⟨none⟩ =>
      constructor
      · simp only [extract_source, fill_source, Option.getD]
        exact iff_of_false hU hs
      · intro h
        exact absurd h hU
    | ⟨some t⟩ => exact ⟨Iff.rfl, fun _ => rfl⟩

/-! Helper lemmas about serialization and the run loop. -/

theorem decode_sources_map_str (srcs : List String) :
    decode_sources (srcs.map Json.str) = .ok srcs := by
  induction srcs with
  | nil => rfl
  | cons s rest ih => simp [decode_sources, ih, Except.map]

theorem decode_encode_case (c : TestCase) :
    decode_case (encode_case c) = .ok c := by
  match c with
  | ⟨q, srcs, none⟩ =>
    simp [encode_case, decode_case, lookup_field, decode_sources_map_str]
  | ⟨q, srcs, some cid⟩ =>
    simp [encode_case, decode_case, lookup_field, decode_sources_map_str]

theorem decode_cases_map_encode (l : List TestCase) :
    decode_cases (l.map encode_case) = .ok l := by
  induction l with
  | nil => rfl
  | cons c rest ih =>
    simp [decode_cases, decode_encode_case c, ih, Except.map]

theorem load_loop_eq_append :
    ∀ (tcs : List TestCase) (st : EvaluatorState),
      load_loop st tcs = { st with test_cases := st.test_cases ++ tcs } := by
  intro tcs
  induction tcs with
  | nil => intro st; simp [load_loop]
  | cons c rest ih =>
    intro st
    rw [load_loop, add_test_case, ih]
    simp

theorem run_results_length (st : EvaluatorState) (kOpt : Option Nat) :
    (run_results st kOpt).length = st.test_cases.length :=
  List.length_map _ _

theorem run_evaluation_ok (now : String) (st : EvaluatorState) (kOpt : Option Nat)
    (h : st.test_cases ≠ []) :
    run_evaluation now st kOpt =
      .ok ({ num_queries := (run_results st kOpt).length
             precision_at_k := ((run_results st kOpt).map fun r => r.precision_at_k).sum
               / ((run_results st kOpt).length : ℚ)
             recall_at_k := ((run_results st kOpt).map fun r => r.recall_at_k).sum
               / ((run_results st kOpt).length : ℚ)
             mrr := ((run_results st kOpt).map fun r => r.reciprocal_rank).sum
               / ((run_results st kOpt).length : ℚ)
             hit_rate := ((run_results st kOpt).map fun r => if r.hit then (1 : ℚ) else 0).sum
               / ((run_results st kOpt).length : ℚ)
             avg_latency_ms := ((run_results st kOpt).map fun r => r.latency_ms).sum
               / ((run_results st kOpt).length : ℚ)
             p95_latency_ms :=
               if 1 < (run_results st kOpt).length then
                 (List.insertionSort (· ≤ ·)
                   ((run_results st kOpt).map fun r => r.latency_ms)).getD
                   (95 * (run_results st kOpt).length / 100) 0
               else ((run_results st kOpt).map fun r => r.latency_ms).headI
             timestamp := now },
           { st with results := run_results st kOpt }) := by
  unfold run_evaluation
  rw [if_neg h]

/-! The claim theorems. -/

/-- Claim C1: for every retrieved list, expected list, and k at least 1,
the per-query metric computation returns precision_at_k equal to the
cardinality of the set intersection of the top-k retrieved sources with
the expected sources, divided by k, and recall_at_k equal to the same
cardinality divided by the length of the expected list (0 when expected
is empty, regardless of retrieved content), and both values lie in the
closed interval from 0 to 1. -/
theorem precision_recall_formulas_and_bounds (st : EvaluatorState) (q : String)
    (E : List String) (cid : Option String) (k : Nat) (hk : 1 ≤ k) :
    (evaluate_single st q E cid (some k)).1.precision_at_k
      = ((((evaluate_single st q E cid (some k)).1.retrieved_sources.take k).toFinset
          ∩ E.toFinset).card : ℚ) / (k : ℚ) ∧
    (evaluate_single st q E cid (some k)).1.recall_at_k
      = (if E = [] then 0
         else ((((evaluate_single st q E cid (some k)).1.retrieved_sources.take k).toFinset
            ∩ E.toFinset).card : ℚ) / (E.length : ℚ)) ∧
    0 ≤ (evaluate_single st q E cid (some k)).1.precision_at_k ∧
    (evaluate_single st q E cid (some k)).1.precision_at_k ≤ 1 ∧
    0 ≤ (evaluate_single st q E cid (some k)).1.recall_at_k ∧
    (evaluate_single st q E cid (some k)).1.recall_at_k ≤ 1 := by
  have hk0 : k ≠ 0 := by omega
  have hek : effective_k st (some k) = k := by simp [effective_k, hk0]
  have hret : (evaluate_single st q E cid (some k)).1.retrieved_sources
      = (st.retriever q cid (effective_k st (some k))).1.map extract_source := rfl
  have hpr : (evaluate_single st q E cid (some k)).1.precision_at_k
      = calculate_precision_at_k
          ((st.retriever q cid (effective_k st (some k))).1.map extract_source) E
          (effective_k st (some k)) := rfl
  have hrc : (evaluate_single st q E cid (some k)).1.recall_at_k
      = calculate_recall_at_k
          ((st.retriever q cid (effective_k st (some k))).1.map extract_source) E
          (effective_k st (some k)) := rfl
  refine ⟨?_, ?_, ?_, ?_, ?_, ?_⟩
  · rw [hpr, hret, hek, calculate_precision_at_k, if_neg hk0]
  · rw [hrc, hret, hek, calculate_recall_at_k]
    by_cases hE : E = []
    · rw [if_pos (by simp [hE]), if_pos hE]
    · rw [if_neg (by simp [hE]), if_neg hE]
  · rw [hpr]; exact calculate_precision_at_k_nonneg _ _ _
  · rw [hpr]; exact calculate_precision_at_k_le_one _ _ _
  · rw [hrc]; exact calculate_recall_at_k_nonneg _ _ _
  · rw [hrc]; exact calculate_recall_at_k_le_one _ _ _

/-- Witness for C1: scenario A of the spec, expected syllabus.pdf and
retrieved syllabus, notes, schedule with k equal 5: precision 1 over 5,
recall 1, both inside the unit interval. -/
theorem precision_recall_formulas_and_bounds_witness :
    1 ≤ 5 ∧
    0 ≤ (evaluate_single stC1 "q" ["syllabus.pdf"] none (some 5)).1.precision_at_k ∧
    (evaluate_single stC1 "q" ["syllabus.pdf"] none (some 5)).1.recall_at_k ≤ 1 ∧
    (evaluate_single stC1 "q" ["syllabus.pdf"] none (some 5)).1.precision_at_k = 1 / 5 ∧
    (evaluate_single stC1 "q" ["syllabus.pdf"] none (some 5)).1.recall_at_k = 1 := by
  refine ⟨by omega,
    (precision_recall_formulas_and_bounds stC1 "q" ["syllabus.pdf"] none 5 (by omega)).2.2.1,
    (precision_recall_formulas_and_bounds stC1 "q" ["syllabus.pdf"] none 5 (by omega)).2.2.2.2.2,
    ?_, ?_⟩
  · norm_num [evaluate_single, stC1, retrC1, effective_k, calculate_precision_at_k,
      extract_source]
  · norm_num [evaluate_single, stC1, retrC1, effective_k, calculate_recall_at_k,
      extract_source]

/-- Claim C2: reciprocal_rank is 1 over the 1-based position of the
first element of the full retrieved list that is in expected (0 when no
element anywhere is), hit is true iff some element of the top-k slice is
in expected, and consequently a relevant item past the top-k slice gives
a positive reciprocal_rank together with hit false; evaluate_single
wires the full extracted list into the rank scan and the top-k slice
into the hit test. -/
theorem reciprocal_rank_full_scan_hit_topk (retrieved E : List String) (k : Nat) :
    ((∀ x ∈ retrieved, x ∉ E) → calculate_reciprocal_rank retrieved E = 0) ∧
    (∀ (i : Nat) (h : i < retrieved.length), retrieved.get ⟨i, h⟩ ∈ E →
      (∀ (j : Nat) (hj : j < retrieved.length), j < i → retrieved.get ⟨j, hj⟩ ∉ E) →
      calculate_reciprocal_rank retrieved E = 1 / ((i : ℚ) + 1)) ∧
    (hit_at_k retrieved E k = true ↔ ∃ x ∈ retrieved.take k, x ∈ E) ∧
    ((∀ x ∈ retrieved.take k, x ∉ E) → (∃ x ∈ retrieved, x ∈ E) →
      0 < calculate_reciprocal_rank retrieved E ∧ hit_at_k retrieved E k = false) ∧
    (∀ (st : EvaluatorState) (q : String) (cid : Option String) (kOpt : Option Nat),
      (evaluate_single st q E cid kOpt).1.reciprocal_rank
        = calculate_reciprocal_rank (evaluate_single st q E cid kOpt).1.retrieved_sources E ∧
      (evaluate_single st q E cid kOpt).1.hit
        = hit_at_k (evaluate_single st q E cid kOpt).1.retrieved_sources E
            (effective_k st kOpt)) := by
  refine ⟨?_, ?_, hit_at_k_iff retrieved E k, ?_, ?_⟩
  · intro hall
    exact rr_aux_eq_zero E retrieved 1 hall
  · intro i h hmem hfirst
    have := rr_aux_first E retrieved 1 i h hmem hfirst
    rw [calculate_reciprocal_rank, this]
    congr 1
    push_cast
    ring
  · intro hnone hex
    constructor
    · exact rr_aux_pos E retrieved 1 (le_refl 1) hex
    · rw [← Bool.not_eq_true]
      intro hh
      obtain ⟨x, hx, hxr⟩ := (hit_at_k_iff retrieved E k).mp hh
      exact hnone x hx hxr
  · intro st q cid kOpt
    exact ⟨rfl, rfl⟩

/-- Witness for C2: expected syllabus.pdf retrieved only at rank 3 with
k equal 1: reciprocal rank 1 over 3 is positive while hit is false. -/
theorem reciprocal_rank_full_scan_hit_topk_witness :
    (∀ x ∈ ["notes.pdf", "schedule.pdf", "syllabus.pdf"].take 1, x ∉ ["syllabus.pdf"]) ∧
    (∃ x ∈ ["notes.pdf", "schedule.pdf", "syllabus.pdf"], x ∈ ["syllabus.pdf"]) ∧
    0 < calculate_reciprocal_rank ["notes.pdf", "schedule.pdf", "syllabus.pdf"] ["syllabus.pdf"] ∧
    hit_at_k ["notes.pdf", "schedule.pdf", "syllabus.pdf"] ["syllabus.pdf"] 1 = false ∧
    calculate_reciprocal_rank ["notes.pdf", "schedule.pdf", "syllabus.pdf"] ["syllabus.pdf"]
      = 1 / 3 := by
  have h1 : ∀ x ∈ ["notes.pdf", "schedule.pdf", "syllabus.pdf"].take 1,
      x ∉ ["syllabus.pdf"] := by decide
  have h2 : ∃ x ∈ ["notes.pdf", "schedule.pdf", "syllabus.pdf"], x ∈ ["syllabus.pdf"] := by
    decide
  have hmain := (reciprocal_rank_full_scan_hit_topk
    ["notes.pdf", "schedule.pdf", "syllabus.pdf"] ["syllabus.pdf"] 1).2.2.2.1 h1 h2
  refine ⟨h1, h2, hmain.1, hmain.2, ?_⟩
  simp [calculate_reciprocal_rank, rr_aux]

/-- Claim C3: for every run over at least one test case, p95_latency_ms
is the single latency when n is 1 and otherwise the element at 0-based
index 95 times n over 100, rounded down, of the latencies sorted
ascending; the sort is an ascending sorted permutation of the latencies
and the index is always in range. -/
theorem p95_latency_formula (now : String) (st : EvaluatorState) (kOpt : Option Nat)
    (h : st.test_cases ≠ []) :
    ((run_evaluation now st kOpt).map fun p => p.1.p95_latency_ms)
      = .ok (if 1 < (run_results st kOpt).length then
               (List.insertionSort (· ≤ ·)
                 ((run_results st kOpt).map fun r => r.latency_ms)).getD
                 (95 * (run_results st kOpt).length / 100) 0
             else ((run_results st kOpt).map fun r => r.latency_ms).headI) ∧
    List.Sorted (· ≤ ·)
      (List.insertionSort (· ≤ ·) ((run_results st kOpt).map fun r => r.latency_ms)) ∧
    (List.insertionSort (· ≤ ·) ((run_results st kOpt).map fun r => r.latency_ms)).Perm
      ((run_results st kOpt).map fun r => r.latency_ms) ∧
    1 ≤ (run_results st kOpt).length ∧
    (1 < (run_results st kOpt).length →
      95 * (run_results st kOpt).length / 100 < (run_results st kOpt).length) := by
  refine ⟨?_, List.sorted_insertionSort _ _, List.perm_insertionSort _ _, ?_, ?_⟩
  · rw [run_evaluation_ok now st kOpt h]
    rfl
  · rw [run_results_length]
    exact List.length_pos.mpr h
  · intro hn
    rw [Nat.div_lt_iff_lt_mul (by omega)]
    omega

/-- Witness for C3: latencies 10, 20, 30, 40, 50 over five cases give
index 4 and p95 equal 50 (and the mean latency 30 for contrast). -/
theorem p95_latency_formula_witness :
    stC3.test_cases ≠ [] ∧
    ((run_evaluation "t" stC3 none).map fun p => p.1.p95_latency_ms) = .ok 50 := by
  refine ⟨by decide, ?_⟩
  refine ((p95_latency_formula "t" stC3 none (by decide)).1).trans ?_
  simp [run_results, stC3, evaluate_single, effective_k, List.insertionSort,
    List.orderedInsert]
  norm_num

/-- Claim C8: for every run over at least one test case, the summary
fields precision_at_k, recall_at_k, mrr, hit_rate are the arithmetic
means of the per-query precision, recall, reciprocal rank and hit
(1 for true, 0 for false), avg_latency_ms is the mean latency, and
num_queries is the number of test cases; the stored result list is the
per-case evaluation in registration order. -/
theorem summary_fields_are_means (now : String) (st : EvaluatorState)
    (kOpt : Option Nat) (h : st.test_cases ≠ []) :
    ((run_evaluation now st kOpt).map fun p => p.2.results) = .ok (run_results st kOpt) ∧
    ((run_evaluation now st kOpt).map fun p => p.1.num_queries)
      = .ok st.test_cases.length ∧
    ((run_evaluation now st kOpt).map fun p => p.1.precision_at_k)
      = .ok (((run_results st kOpt).map fun r => r.precision_at_k).sum
          / ((run_results st kOpt).length : ℚ)) ∧
    ((run_evaluation now st kOpt).map fun p => p.1.recall_at_k)
      = .ok (((run_results st kOpt).map fun r => r.recall_at_k).sum
          / ((run_results st kOpt).length : ℚ)) ∧
    ((run_evaluation now st kOpt).map fun p => p.1.mrr)
      = .ok (((run_results st kOpt).map fun r => r.reciprocal_rank).sum
          / ((run_results st kOpt).length : ℚ)) ∧
    ((run_evaluation now st kOpt).map fun p => p.1.hit_rate)
      = .ok (((run_results st kOpt).map fun r => if r.hit then (1 : ℚ) else 0).sum
          / ((run_results st kOpt).length : ℚ)) ∧
    ((run_evaluation now st kOpt).map fun p => p.1.avg_latency_ms)
      = .ok (((run_results st kOpt).map fun r => r.latency_ms).sum
          / ((run_results st kOpt).length : ℚ)) ∧
    (run_results st kOpt).length = st.test_cases.length := by
  rw [run_evaluation_ok now st kOpt h]
  exact ⟨rfl, by rw [Except.map]; rw [run_results_length], rfl, rfl, rfl, rfl, rfl,
    run_results_length st kOpt⟩

/-- Witness for C8: scenario C of the spec, two cases with hit true and
false and precision 1 and 0: hit_rate and aggregate precision are both
one half, and num_queries is 2. -/
theorem summary_fields_are_means_witness :
    stC8.test_cases ≠ [] ∧
    ((run_evaluation "t" stC8 none).map fun p => p.1.hit_rate) = .ok (1 / 2) ∧
    ((run_evaluation "t" stC8 none).map fun p => p.1.precision_at_k) = .ok (1 / 2) ∧
    ((run_evaluation "t" stC8 none).map fun p => p.1.num_queries) = .ok 2 := by
  refine ⟨by decide, ?_, ?_, ?_⟩
  · refine ((summary_fields_are_means "t" stC8 none (by decide)).2.2.2.2.2.1).trans ?_
    simp [run_results, stC8, evaluate_single, effective_k, hit_at_k, extract_source]
  · refine ((summary_fields_are_means "t" stC8 none (by decide)).2.2.1).trans ?_
    simp [run_results, stC8, evaluate_single, effective_k, calculate_precision_at_k,
      extract_source]
  · exact (summary_fields_are_means "t" stC8 none (by decide)).2.1

/-- Claim C6: run with zero registered test cases fails with the
ConfigurationError kind and never returns a summary (any returned
summary has at least one query), and export invoked before any run has
stored results fails with the ConfigurationError kind. -/
theorem configuration_error_guards (now : String) (st : EvaluatorState)
    (kOpt : Option Nat) :
    (st.test_cases = [] →
      run_evaluation now st kOpt = .error (.configurationError
        "No test cases added. Use add_test_case or load_test_cases first.")) ∧
    (∀ p : EvalSummary × EvaluatorState,
      run_evaluation now st kOpt = .ok p → 1 ≤ p.1.num_queries) ∧
    (st.results = [] →
      export_results now st = .error (.configurationError
        "No results to export. Run evaluation first.")) := by
  refine ⟨?_, ?_, ?_⟩
  · intro h
    rw [run_evaluation, if_pos h]
  · intro p hp
    by_cases hc : st.test_cases = []
    · rw [run_evaluation, if_pos hc] at hp
      cases hp
    · rw [run_evaluation_ok now st kOpt hc] at hp
      cases hp
      rw [run_results_length]
      exact List.length_pos.mpr hc
  · intro h
    rw [export_results, if_pos h]

/-- Witness for C6: on the empty evaluator both run and export fail
with the ConfigurationError kind. -/
theorem configuration_error_guards_witness :
    stC6.test_cases = [] ∧ stC6.results = [] ∧
    run_evaluation "t" stC6 none = .error (.configurationError
      "No test cases added. Use add_test_case or load_test_cases first.") ∧
    export_results "t" stC6 = .error (.configurationError
      "No results to export. Run evaluation first.") :=
  ⟨rfl, rfl, (configuration_error_guards "t" stC6 none).1 rfl,
   (configuration_error_guards "t" stC6 none).2.2 rfl⟩

/-- Claim C7: saving any test-case collection and loading the saved
value into a fresh evaluator reproduces the collection exactly, query,
expected_sources and scope of every case, in the same order, and
returns the case count. -/
theorem save_load_round_trip (stA stB : EvaluatorState)
    (h : stB.test_cases = []) :
    load_test_cases stB (save_test_cases stA)
      = .ok (stA.test_cases.length, { stB with test_cases := stA.test_cases }) := by
  simp [save_test_cases, load_test_cases, decode_cases_map_encode,
    load_loop_eq_append, h]

/-- Witness for C7: the two concrete cases of stC7 round trip into the
fresh evaluator, in order, and the count 2 is returned. -/
theorem save_load_round_trip_witness :
    stC7fresh.test_cases = [] ∧
    load_test_cases stC7fresh (save_test_cases stC7)
      = .ok (stC7.test_cases.length, { stC7fresh with test_cases := stC7.test_cases }) ∧
    stC7.test_cases.length = 2 :=
  ⟨rfl, save_load_round_trip stC7 stC7fresh rfl, rfl⟩

/-- Claim C9: evaluate_single returns the evaluator state unchanged:
the test-case collection, the stored result set and the default k are
exactly what they were. -/
theorem evaluate_single_state_frame (st : EvaluatorState) (q : String)
    (E : List String) (cid : Option String) (kOpt : Option Nat) :
    (evaluate_single st q E cid kOpt).2 = st ∧
    (evaluate_single st q E cid kOpt).2.test_cases = st.test_cases ∧
    (evaluate_single st q E cid kOpt).2.results = st.results ∧
    (evaluate_single st q E cid kOpt).2.k = st.k :=
  ⟨rfl, rfl, rfl, rfl⟩

/-- Counterexample to claim C4: on an evaluator with default k 5,
evaluate_single called with k 0 does not return precision 0: the Python
idiom k or self.k replaces 0 by the default 5, and with one relevant
document retrieved the precision is 1 over 5. -/
theorem evaluate_single_k0_counterexample :
    (evaluate_single stC4 "q" ["syllabus.pdf"] none (some 0)).1.precision_at_k = 1 / 5 ∧
    ¬ (evaluate_single stC4 "q" ["syllabus.pdf"] none (some 0)).1.precision_at_k = 0 := by
  have h1 : (evaluate_single stC4 "q" ["syllabus.pdf"] none (some 0)).1.precision_at_k
      = 1 / 5 := by
    norm_num [evaluate_single, stC4, effective_k, calculate_precision_at_k,
      extract_source]
  refine ⟨h1, ?_⟩
  rw [h1]
  norm_num

/-- Claim C4 as amended: evaluate_single called with k 0 is legal and
total, but k or self.k substitutes the evaluator default k for 0, so
the call behaves exactly like a call with the default k; the precision
helper itself maps k 0 to 0 exactly, and the returned precision_at_k is
0 whenever the evaluator default k is itself 0. -/
theorem evaluate_single_k0_uses_default (st : EvaluatorState) (q : String)
    (E : List String) (cid : Option String) :
    evaluate_single st q E cid (some 0) = evaluate_single st q E cid none ∧
    (∀ retrieved relevant : List String,
      calculate_precision_at_k retrieved relevant 0 = 0) ∧
    (st.k = 0 → (evaluate_single st q E cid (some 0)).1.precision_at_k = 0) := by
  refine ⟨rfl, fun retrieved relevant => rfl, ?_⟩
  intro h
  have hk : effective_k st (some 0) = 0 := by simp [effective_k, h]
  have hpr : (evaluate_single st q E cid (some 0)).1.precision_at_k
      = calculate_precision_at_k
          ((st.retriever q cid (effective_k st (some 0))).1.map extract_source) E
          (effective_k st (some 0)) := rfl
  rw [hpr, hk, calculate_precision_at_k, if_pos rfl]

/-- Witness for the amended C4: with default k 0 the call with k 0
returns precision exactly 0 and no error. -/
theorem evaluate_single_k0_uses_default_witness :
    stC4zero.k = 0 ∧
    (evaluate_single stC4zero "q" ["syllabus.pdf"] none (some 0)).1.precision_at_k = 0 :=
  ⟨rfl, (evaluate_single_k0_uses_default stC4zero "q" ["syllabus.pdf"] none).2.2 rfl⟩

/-- Counterexample to claim C5: the sentinel is the string Unknown, and
when the expected_sources list itself contains Unknown a document with
missing metadata does match it: it scores as relevant, with hit true,
precision 1 and reciprocal rank 1, against the claim that such a
document always counts as irrelevant for every expected list. -/
theorem unknown_sentinel_counterexample :
    extract_source ⟨none⟩ = "Unknown" ∧
    (evaluate_single stC5 "q" ["Unknown"] none (some 1)).1.hit = true ∧
    (evaluate_single stC5 "q" ["Unknown"] none (some 1)).1.precision_at_k = 1 ∧
    (evaluate_single stC5 "q" ["Unknown"] none (some 1)).1.reciprocal_rank = 1 := by
  refine ⟨rfl, by decide, ?_, ?_⟩
  · norm_num [evaluate_single, stC5, effective_k, calculate_precision_at_k,
      extract_source]
  · norm_num [evaluate_single, stC5, effective_k, calculate_reciprocal_rank, rr_aux,
      extract_source]

/-- Claim C5 as amended: a document with missing source metadata is
mapped to the sentinel Unknown; whenever the expected_sources list does
not itself contain the string Unknown, the sentinel never matches an
expected source, and such a document counts as irrelevant in precision,
recall, reciprocal rank and hit: replacing every missing-metadata
document by any other non-expected source changes none of the four
metrics. -/
theorem unknown_always_irrelevant (st : EvaluatorState) (q : String)
    (E : List String) (cid : Option String) (kOpt : Option Nat) (s : String)
    (hU : ("Unknown" : String) ∉ E) (hs : s ∉ E) :
    extract_source ⟨none⟩ = "Unknown" ∧
    (evaluate_single (fill_missing_sources s st) q E cid kOpt).1.precision_at_k
      = (evaluate_single st q E cid kOpt).1.precision_at_k ∧
    (evaluate_single (fill_missing_sources s st) q E cid kOpt).1.recall_at_k
      = (evaluate_single st q E cid kOpt).1.recall_at_k ∧
    (evaluate_single (fill_missing_sources s st) q E cid kOpt).1.reciprocal_rank
      = (evaluate_single st q E cid kOpt).1.reciprocal_rank ∧
    (evaluate_single (fill_missing_sources s st) q E cid kOpt).1.hit
      = (evaluate_single st q E cid kOpt).1.hit := by
  have hf := fill_source_forall₂ E s hU hs (st.retriever q cid (effective_k st kOpt)).1
  refine ⟨rfl, ?_, ?_, ?_, ?_⟩
  · exact (precision_irrelsub_congr E _ _ (effective_k st kOpt) hf).symm
  · exact (recall_irrelsub_congr E _ _ (effective_k st kOpt) hf).symm
  · exact (rr_irrelsub_congr E _ _ hf 1).symm
  · exact (hit_irrelsub_congr E _ _ (effective_k st kOpt) hf).symm

/-- Witness for the amended C5: with expected a, one missing-metadata
document and one real a document, filling the gap with b (not expected)
leaves all four metrics unchanged; the hit is true through the real
document alone. -/
theorem unknown_always_irrelevant_witness :
    (("Unknown" : String) ∉ ["a"]) ∧ (("b" : String) ∉ ["a"]) ∧
    (evaluate_single (fill_missing_sources "b" stC5mix) "q" ["a"] none none).1.hit
      = (evaluate_single stC5mix "q" ["a"] none none).1.hit ∧
    (evaluate_single (fill_missing_sources "b" stC5mix) "q" ["a"] none none).1.reciprocal_rank
      = (evaluate_single stC5mix "q" ["a"] none none).1.reciprocal_rank ∧
    (evaluate_single stC5mix "q" ["a"] none none).1.hit = true := by
  refine ⟨by decide, by decide, ?_, ?_, by decide⟩
  · exact (unknown_always_irrelevant stC5mix "q" ["a"] none none "b"
      (by decide) (by decide)).2.2.2.2
  · exact (unknown_always_irrelevant stC5mix "q" ["a"] none none "b"
      (by decide) (by decide)).2.2.2.1

/-- Counterexample to claim C10: run invoked with k 0, which differs
from the default k 5, actually runs with the default k because of the
k or self.k idiom, and the k field later written by export equals the k
actually used for the metrics, against the claim that any run k
different from the default makes them differ. -/
theorem export_k_counterexample :
    (0 : Nat) ≠ stC10.k ∧
    effective_k stC10 (some 0) = stC10.k ∧
    (((run_evaluation "t" stC10 (some 0)).bind fun p => export_results "t2" p.2).map
        fun d => d.k)
      = .ok (effective_k stC10 (some 0)) := by
  refine ⟨by decide, rfl, ?_⟩
  rfl

/-- Claim C10 as amended: the k field written by export is the
evaluator construction-time default k whatever k the most recent run
was passed; consequently, after run with a k that is neither 0 nor the
default, the exported k differs from the k actually used for that run's
metrics (with k 0 the run substitutes the default, so the two agree). -/
theorem export_k_is_constructor_default (now now2 : String) (st : EvaluatorState)
    (k1 : Nat) (h0 : k1 ≠ 0) (hne : k1 ≠ st.k) (hc : st.test_cases ≠ []) :
    (∀ kOpt : Option Nat,
      (((run_evaluation now st kOpt).bind fun p => export_results now2 p.2).map
          fun d => d.k) = .ok st.k) ∧
    effective_k st (some k1) = k1 ∧
    st.k ≠ k1 := by
  refine ⟨?_, by simp [effective_k, h0], Ne.symm hne⟩
  intro kOpt
  have hres : run_results st kOpt ≠ [] := by
    intro hnil
    have := run_results_length st kOpt
    rw [hnil] at this
    exact hc (List.eq_nil_of_length_eq_zero this.symm)
  rw [run_evaluation_ok now st kOpt hc]
  show (export_results now2 { st with results := run_results st kOpt }).map
    (fun d => d.k) = .ok st.k
  rw [export_results, if_neg hres]
  rfl

/-- Witness for the amended C10: default k 5, run with k 3: the run
uses k 3 but the exported k is 5. -/
theorem export_k_is_constructor_default_witness :
    (3 : Nat) ≠ 0 ∧ (3 : Nat) ≠ stC10.k ∧ stC10.test_cases ≠ [] ∧
    (((run_evaluation "t" stC10 (some 3)).bind fun p => export_results "t2" p.2).map
        fun d => d.k) = .ok 5 ∧
    effective_k stC10 (some 3) = 3 := by
  have h := export_k_is_constructor_default "t" "t2" stC10 3 (by decide) (by decide)
    (by decide)
  exact ⟨by decide, by decide, by decide, h.1 (some 3), h.2.1⟩
